import Mathlib

/-!
Verification of the financial calculation engine of the Treasury-Bills
calculator (`src/treasury_core/calculations.py`, `src/treasury_core/models.py`,
`src/constants.py`).

The Python code performs its arithmetic on `Decimal` values converted from the
caller's floats; here every quantity is embedded as an exact rational (`ℚ`),
and the integer fields (`tenor`, `original_tenor`, `holding_days`, Python
`int`) as `ℤ`.  Fallible Python code (functions that raise `ValueError` /
pydantic `ValidationError`) is embedded as `Except`-returning functions; the
error payload records which input field a validation rejection names, or which
internal guard a calculation fault comes from.
-/

namespace TreasuryCore

/-- Financial constants from `src/constants.py`. -/
def DAYS_IN_YEAR : ℚ := 365

def MIN_T_BILL_AMOUNT : ℚ := 25000

def MAX_T_BILL_AMOUNT : ℚ := 10000000

def MAX_YIELD_RATE : ℚ := 100

def MAX_TENOR_DAYS : ℤ := 365

/-- The input field a validation rejection names
(`yieldRate` stands for the yield-rate field(s): the checks in
`_validate_secondary_inputs` reject the two yield fields with one message). -/
inductive VField where
  | faceValue
  | yieldRate
  | tenor
  | taxRate
  | holdingDays
deriving DecidableEq, Repr

/-- The internal guard that a calculation fault comes from
(`_calculate_purchase_price` / `_calculate_secondary_sale_price`). -/
inductive CalcFault where
  | badDenominator
  | nonPositivePrice
  | priceNotBelowFace
deriving DecidableEq, Repr

/-- Error taxonomy of the two calculators: a validation rejection naming a
field, or an internal calculation fault. -/
inductive CalcError where
  | validation (field : VField)
  | calculation (fault : CalcFault)
deriving DecidableEq, Repr

/-- `PrimaryYieldInput` from `src/treasury_core/models.py`. -/
structure PrimaryYieldInput where
  face_value : ℚ
  yield_rate : ℚ
  tenor : ℤ
  tax_rate : ℚ
deriving DecidableEq, Repr

/-- `PrimaryYieldResult` from `src/treasury_core/models.py`. -/
structure PrimaryYieldResult where
  purchase_price : ℚ
  gross_return : ℚ
  tax_amount : ℚ
  net_return : ℚ
  total_payout : ℚ
  real_profit_percentage : ℚ
deriving DecidableEq, Repr

/-- `SecondarySaleInput` from `src/treasury_core/models.py`. -/
structure SecondarySaleInput where
  face_value : ℚ
  original_yield : ℚ
  original_tenor : ℤ
  holding_days : ℤ
  secondary_yield : ℚ
  tax_rate : ℚ
deriving DecidableEq, Repr

/-- `SecondarySaleResult` from `src/treasury_core/models.py`. -/
structure SecondarySaleResult where
  original_purchase_price : ℚ
  sale_price : ℚ
  gross_profit : ℚ
  tax_amount : ℚ
  net_profit : ℚ
  period_yield : ℚ
deriving DecidableEq, Repr

/-- `_validate_primary_inputs` from `src/treasury_core/calculations.py`
(lines 94-129): the sequence of range checks, in source order, each raising
a validation error naming the offending field. -/
def validatePrimaryInputs (i : PrimaryYieldInput) :
    Except VField PrimaryYieldInput :=
  if i.yield_rate ≤ 0 then .error .yieldRate
  else if i.tenor ≤ 0 then .error .tenor
  else if i.face_value ≤ 0 then .error .faceValue
  else if i.tax_rate < 0 ∨ i.tax_rate > 100 then .error .taxRate
  else if i.face_value < MIN_T_BILL_AMOUNT then .error .faceValue
  else if i.face_value > MAX_T_BILL_AMOUNT then .error .faceValue
  else if i.yield_rate > MAX_YIELD_RATE then .error .yieldRate
  else if i.tenor > MAX_TENOR_DAYS then .error .tenor
  else .ok i

/-- `_validate_secondary_inputs` from `src/treasury_core/calculations.py`
(lines 273-311), in source order. -/
def validateSecondaryInputs (i : SecondarySaleInput) :
    Except VField SecondarySaleInput :=
  if i.original_yield ≤ 0 ∨ i.secondary_yield ≤ 0 then .error .yieldRate
  else if i.holding_days ≤ 0 ∨ i.holding_days ≥ i.original_tenor then
    .error .holdingDays
  else if i.face_value ≤ 0 then .error .faceValue
  else if i.tax_rate < 0 ∨ i.tax_rate > 100 then .error .taxRate
  else if i.face_value < MIN_T_BILL_AMOUNT then .error .faceValue
  else if i.face_value > MAX_T_BILL_AMOUNT then .error .faceValue
  else if i.original_yield > MAX_YIELD_RATE ∨ i.secondary_yield > MAX_YIELD_RATE
    then .error .yieldRate
  else if i.original_tenor > MAX_TENOR_DAYS then .error .tenor
  else .ok i

/-- `_calculate_purchase_price` from `src/treasury_core/calculations.py`
(lines 132-166): simple-interest discounting with the three internal guards. -/
def calculatePurchasePrice (face_value yield_rate tenor : ℚ) :
    Except CalcFault ℚ :=
  let denominator := 1 + yield_rate / 100 * tenor / DAYS_IN_YEAR
  if denominator ≤ 0 then .error .badDenominator
  else
    let purchase_price := face_value / denominator
    if purchase_price ≤ 0 then .error .nonPositivePrice
    else if purchase_price ≥ face_value then .error .priceNotBelowFace
    else .ok purchase_price

/-- `_calculate_secondary_sale_price` from `src/treasury_core/calculations.py`
(lines 314-351): the same discounting computation applied to the remaining
days at the secondary-market yield. -/
def calculateSecondarySalePrice (face_value secondary_yield remaining_days : ℚ) :
    Except CalcFault ℚ :=
  let secondary_denominator :=
    1 + secondary_yield / 100 * remaining_days / DAYS_IN_YEAR
  if secondary_denominator ≤ 0 then .error .badDenominator
  else
    let sale_price := face_value / secondary_denominator
    if sale_price ≤ 0 then .error .nonPositivePrice
    else if sale_price ≥ face_value then .error .priceNotBelowFace
    else .ok sale_price

/-- The division step of the ratio helpers, embedded as a fallible operation:
Python `Decimal` division raises on a zero divisor. -/
def checkedDiv (a b : ℚ) : Except Unit ℚ :=
  if b = 0 then .error () else .ok (a / b)

/-- The `try`-body shape shared by `_calculate_real_profit_percentage`
(lines 169-189): inside the `try`, a non-positive denominator returns 0;
then the division runs, and the surrounding catch-all `except` turns any
fault raised by it into 0 as well.  The division step is a parameter so that
the catch-all branch is stated for an arbitrary arithmetic fault. -/
def realProfitPercentageWith (div : ℚ → ℚ → Except Unit ℚ)
    (net_return purchase_price : ℚ) : ℚ :=
  if purchase_price ≤ 0 then 0
  else
    match div net_return purchase_price with
    | .ok q => q * 100
    | .error _ => 0

/-- `_calculate_real_profit_percentage` from `src/treasury_core/calculations.py`
(lines 169-189). -/
def calculateRealProfitPercentage (net_return purchase_price : ℚ) : ℚ :=
  realProfitPercentageWith checkedDiv net_return purchase_price

/-- The `try`-body shape shared by `_calculate_period_yield` (lines 354-374),
with the division step as a parameter, as for the real-profit helper. -/
def periodYieldWith (div : ℚ → ℚ → Except Unit ℚ)
    (net_profit original_purchase_price : ℚ) : ℚ :=
  if original_purchase_price ≤ 0 then 0
  else
    match div net_profit original_purchase_price with
    | .ok q => q * 100
    | .error _ => 0

/-- `_calculate_period_yield` from `src/treasury_core/calculations.py`
(lines 354-374). -/
def calculatePeriodYield (net_profit original_purchase_price : ℚ) : ℚ :=
  periodYieldWith checkedDiv net_profit original_purchase_price

/-- `calculate_primary_yield` from `src/treasury_core/calculations.py`
(lines 19-91): validate, discount, then derive returns, tax and payout. -/
def calculatePrimaryYield (inputs : PrimaryYieldInput) :
    Except CalcError PrimaryYieldResult :=
  match validatePrimaryInputs inputs with
  | .error f => .error (.validation f)
  | .ok v =>
    match calculatePurchasePrice v.face_value v.yield_rate (v.tenor : ℚ) with
    | .error e => .error (.calculation e)
    | .ok purchase_price =>
      let gross_return := v.face_value - purchase_price
      let tax_amount := gross_return * (v.tax_rate / 100)
      let net_return := gross_return - tax_amount
      let real_profit_percentage :=
        calculateRealProfitPercentage net_return purchase_price
      .ok {
        purchase_price := purchase_price
        gross_return := gross_return
        tax_amount := tax_amount
        net_return := net_return
        total_payout := v.face_value
        real_profit_percentage := real_profit_percentage }

/-- `analyze_secondary_sale` from `src/treasury_core/calculations.py`
(lines 192-270): validate, discount twice, then derive profit, tax and
period yield. -/
def analyzeSecondarySale (inputs : SecondarySaleInput) :
    Except CalcError SecondarySaleResult :=
  match validateSecondaryInputs inputs with
  | .error f => .error (.validation f)
  | .ok v =>
    match calculatePurchasePrice v.face_value v.original_yield
        (v.original_tenor : ℚ) with
    | .error e => .error (.calculation e)
    | .ok original_purchase_price =>
      let remaining_days : ℚ := (v.original_tenor : ℚ) - (v.holding_days : ℚ)
      match calculateSecondarySalePrice v.face_value v.secondary_yield
          remaining_days with
      | .error e => .error (.calculation e)
      | .ok sale_price =>
        let gross_profit := sale_price - original_purchase_price
        let tax_amount := max 0 (gross_profit * (v.tax_rate / 100))
        let net_profit := gross_profit - tax_amount
        let period_yield := calculatePeriodYield net_profit original_purchase_price
        .ok {
          original_purchase_price := original_purchase_price
          sale_price := sale_price
          gross_profit := gross_profit
          tax_amount := tax_amount
          net_profit := net_profit
          period_yield := period_yield }

/-! ### Helper lemmas -/

lemma days_in_year_pos : (0 : ℚ) < DAYS_IN_YEAR := by norm_num [DAYS_IN_YEAR]

lemma denom_gt_one {y t : ℚ} (hy : 0 < y) (ht : 0 < t) :
    1 < 1 + y / 100 * t / DAYS_IN_YEAR := by
  have h : 0 < y / 100 * t / DAYS_IN_YEAR :=
    div_pos (mul_pos (div_pos hy (by norm_num)) ht) days_in_year_pos
  linarith

/-- The two discounting helpers have literally identical bodies. -/
lemma secondary_price_eq_purchase_price :
    calculateSecondarySalePrice = calculatePurchasePrice := rfl

/-- On positive inputs the discounter takes none of its error branches and
returns the discounted price. -/
lemma calculatePurchasePrice_pos {fv y t : ℚ}
    (hfv : 0 < fv) (hy : 0 < y) (ht : 0 < t) :
    calculatePurchasePrice fv y t = .ok (fv / (1 + y / 100 * t / DAYS_IN_YEAR)) := by
  have hd1 : 1 < 1 + y / 100 * t / DAYS_IN_YEAR := denom_gt_one hy ht
  have hd0 : (0 : ℚ) < 1 + y / 100 * t / DAYS_IN_YEAR := by linarith
  have hp : 0 < fv / (1 + y / 100 * t / DAYS_IN_YEAR) := div_pos hfv hd0
  have hlt : fv / (1 + y / 100 * t / DAYS_IN_YEAR) < fv := div_lt_self hfv hd1
  simp only [calculatePurchasePrice]
  rw [if_neg (not_le.mpr hd0), if_neg (not_le.mpr hp), if_neg (not_le.mpr hlt)]

/-- Inversion: a successful discounting call returns exactly the discounted
price, with a positive denominator and the output bounds. -/
lemma calculatePurchasePrice_ok {fv y t p : ℚ}
    (h : calculatePurchasePrice fv y t = .ok p) :
    p = fv / (1 + y / 100 * t / DAYS_IN_YEAR) ∧
    0 < 1 + y / 100 * t / DAYS_IN_YEAR ∧ 0 < p ∧ p < fv := by
  simp only [calculatePurchasePrice] at h
  split_ifs at h with h1 h2 h3
  all_goals simp at h
  push_neg at h1 h2 h3
  exact ⟨h.symm, h1, h ▸ h2, h ▸ h3⟩

/-- Inversion of primary-input validation: on success the inputs are returned
unchanged and every range check holds. -/
lemma validatePrimaryInputs_ok {i v : PrimaryYieldInput}
    (h : validatePrimaryInputs i = .ok v) :
    v = i ∧ 0 < i.yield_rate ∧ 0 < i.tenor ∧ 0 < i.face_value ∧
    0 ≤ i.tax_rate ∧ i.tax_rate ≤ 100 ∧
    MIN_T_BILL_AMOUNT ≤ i.face_value ∧ i.face_value ≤ MAX_T_BILL_AMOUNT ∧
    i.yield_rate ≤ MAX_YIELD_RATE ∧ i.tenor ≤ MAX_TENOR_DAYS := by
  unfold validatePrimaryInputs at h
  split_ifs at h with h1 h2 h3 h4 h5 h6 h7 h8
  all_goals simp at h
  push_neg at h1 h2 h3 h4 h5 h6 h7 h8
  exact ⟨h.symm, h1, h2, h3, h4.1, h4.2, h5, h6, h7, h8⟩

/-- Inversion of secondary-input validation. -/
lemma validateSecondaryInputs_ok {i v : SecondarySaleInput}
    (h : validateSecondaryInputs i = .ok v) :
    v = i ∧ 0 < i.original_yield ∧ 0 < i.secondary_yield ∧
    0 < i.holding_days ∧ i.holding_days < i.original_tenor ∧
    0 < i.face_value ∧ 0 ≤ i.tax_rate ∧ i.tax_rate ≤ 100 := by
  unfold validateSecondaryInputs at h
  split_ifs at h with h1 h2 h3 h4 h5 h6 h7 h8
  all_goals simp at h
  push_neg at h1 h2 h3 h4
  exact ⟨h.symm, h1.1, h1.2, h2.1, h2.2, h3, h4.1, h4.2⟩

/-- With positive yields, an out-of-bounds `holding_days` is what secondary
validation rejects, naming that field. -/
lemma validateSecondaryInputs_holdingDays {i : SecondarySaleInput}
    (hoy : 0 < i.original_yield) (hsy : 0 < i.secondary_yield)
    (hhd : i.holding_days ≤ 0 ∨ i.original_tenor ≤ i.holding_days) :
    validateSecondaryInputs i = .error .holdingDays := by
  have hno : ¬(i.original_yield ≤ 0 ∨ i.secondary_yield ≤ 0) := by
    push_neg
    exact ⟨hoy, hsy⟩
  unfold validateSecondaryInputs
  rw [if_neg hno,
    if_pos (show i.holding_days ≤ 0 ∨ i.holding_days ≥ i.original_tenor from hhd)]

/-- Inversion of the primary calculator: a successful call means validation
passed and every output field is the documented arithmetic on the discounted
price. -/
lemma calculatePrimaryYield_ok {i : PrimaryYieldInput} {r : PrimaryYieldResult}
    (h : calculatePrimaryYield i = .ok r) :
    validatePrimaryInputs i = .ok i ∧
    ∃ p, calculatePurchasePrice i.face_value i.yield_rate (i.tenor : ℚ) = .ok p ∧
      r.purchase_price = p ∧
      r.gross_return = i.face_value - p ∧
      r.tax_amount = (i.face_value - p) * (i.tax_rate / 100) ∧
      r.net_return = i.face_value - p - (i.face_value - p) * (i.tax_rate / 100) ∧
      r.total_payout = i.face_value := by
  unfold calculatePrimaryYield at h
  split at h
  next f hv => simp at h
  next v hv =>
    obtain ⟨hvi, -⟩ := validatePrimaryInputs_ok hv
    subst hvi
    split at h
    next e hp => simp at h
    next p hp =>
      cases r with
      | mk rpp rgr rta rnr rtp rrp =>
        simp only [Except.ok.injEq, PrimaryYieldResult.mk.injEq] at h
        obtain ⟨e1, e2, e3, e4, e5, e6⟩ := h
        exact ⟨hv, p, hp, e1.symm, e2.symm, e3.symm, e4.symm, e5.symm⟩

/-! ### Claim theorems -/

/-- C1: for every `face_value > 0`, `yield_rate > 0` and `tenor_days > 0`,
the purchase-price discounter returns exactly
`face_value / (1 + (yield_rate/100) * (tenor_days/365))`, with the fixed
day-count divisor `DAYS_IN_YEAR = 365`. -/
theorem purchase_price_formula (fv y t : ℚ)
    (hfv : 0 < fv) (hy : 0 < y) (ht : 0 < t) :
    calculatePurchasePrice fv y t = .ok (fv / (1 + y / 100 * (t / 365))) ∧
    DAYS_IN_YEAR = 365 := by
  refine ⟨?_, rfl⟩
  rw [calculatePurchasePrice_pos hfv hy ht]
  have harr : y / 100 * t / DAYS_IN_YEAR = y / 100 * (t / 365) := by
    simp only [DAYS_IN_YEAR]
    ring
  rw [harr]

theorem purchase_price_formula_witness :
    (0 : ℚ) < 100000 ∧ (0 : ℚ) < 25 ∧ (0 : ℚ) < 364 ∧
    (calculatePurchasePrice 100000 25 364 =
      .ok (100000 / (1 + 25 / 100 * (364 / 365))) ∧ DAYS_IN_YEAR = 365) :=
  ⟨by norm_num, by norm_num, by norm_num,
    purchase_price_formula 100000 25 364 (by norm_num) (by norm_num) (by norm_num)⟩

/-- C7: for every `face_value > 0`, `yield_rate > 0` and `tenor_days > 0`,
both discounting helpers succeed (none of the internal error branches for a
non-positive denominator, a non-positive price, or a price at or above face
value is taken) and the returned price satisfies `0 < price < face_value`. -/
theorem discounter_bounds (fv y t : ℚ)
    (hfv : 0 < fv) (hy : 0 < y) (ht : 0 < t) :
    (∃ p, calculatePurchasePrice fv y t = .ok p ∧ 0 < p ∧ p < fv) ∧
    (∃ q, calculateSecondarySalePrice fv y t = .ok q ∧ 0 < q ∧ q < fv) := by
  have hd1 : 1 < 1 + y / 100 * t / DAYS_IN_YEAR := denom_gt_one hy ht
  have hd0 : (0 : ℚ) < 1 + y / 100 * t / DAYS_IN_YEAR := by linarith
  refine ⟨⟨fv / (1 + y / 100 * t / DAYS_IN_YEAR),
      calculatePurchasePrice_pos hfv hy ht, div_pos hfv hd0, div_lt_self hfv hd1⟩,
    ⟨fv / (1 + y / 100 * t / DAYS_IN_YEAR), ?_, div_pos hfv hd0, div_lt_self hfv hd1⟩⟩
  rw [secondary_price_eq_purchase_price]
  exact calculatePurchasePrice_pos hfv hy ht

theorem discounter_bounds_witness :
    (0 : ℚ) < 50000 ∧ (0 : ℚ) < 20 ∧ (0 : ℚ) < 182 ∧
    ((∃ p, calculatePurchasePrice 50000 20 182 = .ok p ∧ 0 < p ∧ p < 50000) ∧
     (∃ q, calculateSecondarySalePrice 50000 20 182 = .ok q ∧ 0 < q ∧ q < 50000)) :=
  ⟨by norm_num, by norm_num, by norm_num,
    discounter_bounds 50000 20 182 (by norm_num) (by norm_num) (by norm_num)⟩

/-- C2: for every accepted `PrimaryYieldInput`, the result satisfies
`purchase_price + gross_return = face_value`,
`tax_amount = gross_return * tax_rate/100`,
`net_return = gross_return - tax_amount`, `total_payout = face_value`
regardless of `tax_rate`; `tax_rate = 0` implies `net_return = gross_return`
and `tax_rate = 100` implies `net_return = 0`. -/
theorem primary_yield_invariants (i : PrimaryYieldInput) (r : PrimaryYieldResult)
    (h : calculatePrimaryYield i = .ok r) :
    r.purchase_price + r.gross_return = i.face_value ∧
    r.tax_amount = r.gross_return * (i.tax_rate / 100) ∧
    r.net_return = r.gross_return - r.tax_amount ∧
    r.total_payout = i.face_value ∧
    (i.tax_rate = 0 → r.net_return = r.gross_return) ∧
    (i.tax_rate = 100 → r.net_return = 0) := by
  obtain ⟨-, p, -, hpp, hgr, hta, hnr, htp⟩ := calculatePrimaryYield_ok h
  refine ⟨by rw [hpp, hgr]; ring, by rw [hta, hgr], by rw [hnr, hgr, hta], htp,
    fun h0 => ?_, fun h100 => ?_⟩
  · rw [hnr, hgr, h0]
    ring
  · rw [hnr, h100]
    ring

/-- The primary scenario input of the spec (`§8`, scenario 1). -/
def samplePrimaryInput : PrimaryYieldInput :=
  { face_value := 100000, yield_rate := 25, tenor := 364, tax_rate := 20 }

/-- What the code computes at `samplePrimaryInput`, as exact rationals. -/
def samplePrimaryResult : PrimaryYieldResult :=
  { purchase_price := 4562500 / 57
    gross_return := 1137500 / 57
    tax_amount := 227500 / 57
    net_return := 910000 / 57
    total_payout := 100000
    real_profit_percentage := 1456 / 73 }

/-- Scenario 1 with `tax_rate = 0` (spec `§8`, scenario 2). -/
def samplePrimaryInputTax0 : PrimaryYieldInput :=
  { face_value := 100000, yield_rate := 25, tenor := 364, tax_rate := 0 }

/-- What the code computes at `samplePrimaryInputTax0`. -/
def samplePrimaryResultTax0 : PrimaryYieldResult :=
  { purchase_price := 4562500 / 57
    gross_return := 1137500 / 57
    tax_amount := 0
    net_return := 1137500 / 57
    total_payout := 100000
    real_profit_percentage := 1820 / 73 }

lemma samplePrimary_eval :
    calculatePrimaryYield samplePrimaryInput = .ok samplePrimaryResult := by
  norm_num [calculatePrimaryYield, validatePrimaryInputs, calculatePurchasePrice,
    calculateRealProfitPercentage, realProfitPercentageWith, checkedDiv,
    samplePrimaryInput, samplePrimaryResult, DAYS_IN_YEAR, MIN_T_BILL_AMOUNT,
    MAX_T_BILL_AMOUNT, MAX_YIELD_RATE, MAX_TENOR_DAYS]

lemma samplePrimaryTax0_eval :
    calculatePrimaryYield samplePrimaryInputTax0 = .ok samplePrimaryResultTax0 := by
  norm_num [calculatePrimaryYield, validatePrimaryInputs, calculatePurchasePrice,
    calculateRealProfitPercentage, realProfitPercentageWith, checkedDiv,
    samplePrimaryInputTax0, samplePrimaryResultTax0, DAYS_IN_YEAR,
    MIN_T_BILL_AMOUNT, MAX_T_BILL_AMOUNT, MAX_YIELD_RATE, MAX_TENOR_DAYS]

theorem primary_yield_invariants_witness :
    calculatePrimaryYield samplePrimaryInput = .ok samplePrimaryResult ∧
    (samplePrimaryResult.purchase_price + samplePrimaryResult.gross_return =
        samplePrimaryInput.face_value ∧
      samplePrimaryResult.tax_amount =
        samplePrimaryResult.gross_return * (samplePrimaryInput.tax_rate / 100) ∧
      samplePrimaryResult.net_return =
        samplePrimaryResult.gross_return - samplePrimaryResult.tax_amount ∧
      samplePrimaryResult.total_payout = samplePrimaryInput.face_value ∧
      (samplePrimaryInput.tax_rate = 0 →
        samplePrimaryResult.net_return = samplePrimaryResult.gross_return) ∧
      (samplePrimaryInput.tax_rate = 100 →
        samplePrimaryResult.net_return = 0)) :=
  ⟨samplePrimary_eval,
    primary_yield_invariants samplePrimaryInput samplePrimaryResult samplePrimary_eval⟩

/-- C6 counterexample: at the spec's scenario input
`(face_value := 100000, yield_rate := 25, tenor := 364, tax_rate := 20)`
the computed purchase price is `4562500/57 ≈ 80043.86`, which differs from
the claimed `≈ 80702.93` by more than 600, so none of the claimed scenario
amounts is what the code returns. -/
theorem primary_scenario_counterexample :
    calculatePrimaryYield samplePrimaryInput = .ok samplePrimaryResult ∧
    600 < |samplePrimaryResult.purchase_price - 80702.93| := by
  refine ⟨samplePrimary_eval, ?_⟩
  norm_num [samplePrimaryResult, abs]

/-- C6 amended: `calculate_primary_yield(face_value=100000, yield_rate=25.0,
tenor=364, tax_rate=20.0)` returns `purchase_price ≈ 80043.86`,
`gross_return ≈ 19956.14`, `tax_amount ≈ 3991.23`, `net_return ≈ 15964.91`
and `total_payout = 100000`; with the same inputs except `tax_rate = 0` it
returns `net_return = gross_return ≈ 19956.14`. -/
theorem primary_scenario_values :
    calculatePrimaryYield samplePrimaryInput = .ok samplePrimaryResult ∧
    |samplePrimaryResult.purchase_price - 80043.86| < 1 / 100 ∧
    |samplePrimaryResult.gross_return - 19956.14| < 1 / 100 ∧
    |samplePrimaryResult.tax_amount - 3991.23| < 1 / 100 ∧
    |samplePrimaryResult.net_return - 15964.91| < 1 / 100 ∧
    samplePrimaryResult.total_payout = 100000 ∧
    calculatePrimaryYield samplePrimaryInputTax0 = .ok samplePrimaryResultTax0 ∧
    samplePrimaryResultTax0.net_return = samplePrimaryResultTax0.gross_return ∧
    |samplePrimaryResultTax0.net_return - 19956.14| < 1 / 100 := by
  refine ⟨samplePrimary_eval, ?_, ?_, ?_, ?_, ?_, samplePrimaryTax0_eval, ?_, ?_⟩
  all_goals norm_num [samplePrimaryResult, samplePrimaryResultTax0, abs]

/-- Inversion of the secondary calculator: a successful call means validation
passed and every output field is the documented arithmetic on the two
discounted prices. -/
lemma analyzeSecondarySale_ok {i : SecondarySaleInput} {r : SecondarySaleResult}
    (h : analyzeSecondarySale i = .ok r) :
    validateSecondaryInputs i = .ok i ∧
    ∃ opp sp,
      calculatePurchasePrice i.face_value i.original_yield
        (i.original_tenor : ℚ) = .ok opp ∧
      calculateSecondarySalePrice i.face_value i.secondary_yield
        ((i.original_tenor : ℚ) - (i.holding_days : ℚ)) = .ok sp ∧
      r.original_purchase_price = opp ∧
      r.sale_price = sp ∧
      r.gross_profit = sp - opp ∧
      r.tax_amount = max 0 ((sp - opp) * (i.tax_rate / 100)) ∧
      r.net_profit = sp - opp - max 0 ((sp - opp) * (i.tax_rate / 100)) := by
  unfold analyzeSecondarySale at h
  split at h
  next f hv => simp at h
  next v hv =>
    obtain ⟨hvi, -⟩ := validateSecondaryInputs_ok hv
    subst hvi
    split at h
    next e hp => simp at h
    next opp hopp =>
      dsimp only at h
      split at h
      next e hsp => simp at h
      next sp hsp =>
        cases r with
        | mk a1 a2 a3 a4 a5 a6 =>
          simp only [Except.ok.injEq, SecondarySaleResult.mk.injEq] at h
          obtain ⟨e1, e2, e3, e4, e5, e6⟩ := h
          exact ⟨hv, opp, sp, hopp, hsp, e1.symm, e2.symm, e3.symm, e4.symm, e5.symm⟩

/-! ### Secondary-sale claims -/

/-- C3: for every accepted `SecondarySaleInput`,
`tax_amount = max(0, gross_profit * tax_rate/100)` — zero on a loss, the
full proportional tax on a gain — `net_profit = gross_profit - tax_amount`,
and `gross_profit = sale_price - original_purchase_price`. -/
theorem secondary_tax_rule (i : SecondarySaleInput) (r : SecondarySaleResult)
    (h : analyzeSecondarySale i = .ok r) :
    r.gross_profit = r.sale_price - r.original_purchase_price ∧
    r.tax_amount = max 0 (r.gross_profit * (i.tax_rate / 100)) ∧
    (r.gross_profit ≤ 0 → r.tax_amount = 0) ∧
    (0 < r.gross_profit → r.tax_amount = r.gross_profit * (i.tax_rate / 100)) ∧
    r.net_profit = r.gross_profit - r.tax_amount := by
  obtain ⟨hv, opp, sp, -, -, h1, h2, h3, h4, h5⟩ := analyzeSecondarySale_ok h
  obtain ⟨-, -, -, -, -, -, htax0, -⟩ := validateSecondaryInputs_ok hv
  have hrate : (0 : ℚ) ≤ i.tax_rate / 100 := by positivity
  refine ⟨by rw [h3, h1, h2], by rw [h4, h3], fun hle => ?_, fun hlt => ?_,
    by rw [h5, h3, h4]⟩
  · rw [h3] at hle
    rw [h4]
    exact max_eq_left (mul_nonpos_iff.mpr (Or.inr ⟨hle, hrate⟩))
  · rw [h3] at hlt
    rw [h4, h3]
    exact max_eq_right (mul_nonneg hlt.le hrate)

/-- C4: with the model's own positivity of the two yield rates, an input
whose `holding_days` is `≤ 0` or `≥ original_tenor` is rejected with a
validation error naming `holding_days`; every accepted input has strictly
positive `remaining_days = original_tenor - holding_days`. -/
theorem holding_days_validation (i : SecondarySaleInput)
    (hoy : 0 < i.original_yield) (hsy : 0 < i.secondary_yield) :
    ((i.holding_days ≤ 0 ∨ i.original_tenor ≤ i.holding_days) →
      analyzeSecondarySale i = .error (.validation .holdingDays)) ∧
    (∀ r, analyzeSecondarySale i = .ok r →
      0 < i.original_tenor - i.holding_days) := by
  constructor
  · intro hhd
    simp only [analyzeSecondarySale,
      validateSecondaryInputs_holdingDays hoy hsy hhd]
  · intro r hr
    obtain ⟨hv, -⟩ := analyzeSecondarySale_ok hr
    obtain ⟨-, -, -, -, hlt, -⟩ := validateSecondaryInputs_ok hv
    omega

theorem holding_days_validation_witness :
    (0 < (25 : ℚ) ∧ 0 < (23 : ℚ)) ∧
    analyzeSecondarySale
      { face_value := 100000, original_yield := 25, original_tenor := 364,
        holding_days := 0, secondary_yield := 23, tax_rate := 20 } =
      .error (.validation .holdingDays) ∧
    analyzeSecondarySale
      { face_value := 100000, original_yield := 25, original_tenor := 364,
        holding_days := 364, secondary_yield := 23, tax_rate := 20 } =
      .error (.validation .holdingDays) := by
  refine ⟨⟨by norm_num, by norm_num⟩, ?_, ?_⟩
  · exact (holding_days_validation _ (by norm_num) (by norm_num)).1
      (Or.inl (by norm_num))
  · exact (holding_days_validation _ (by norm_num) (by norm_num)).1
      (Or.inr (by norm_num))

/-- The secondary profit scenario of the spec (`§8`, scenario 3). -/
def sampleSecondaryProfitInput : SecondarySaleInput :=
  { face_value := 100000, original_yield := 25, original_tenor := 364,
    holding_days := 90, secondary_yield := 23, tax_rate := 20 }

/-- What the code computes at `sampleSecondaryProfitInput`. -/
def sampleSecondaryProfitResult : SecondarySaleResult :=
  { original_purchase_price := 4562500 / 57
    sale_price := 1825000000 / 21401
    gross_profit := 6382937500 / 1219857
    tax_amount := 1276587500 / 1219857
    net_profit := 5106350000 / 1219857
    period_yield := 111920 / 21401 }

/-- The secondary loss scenario of the spec (`§8`, scenario 4):
`secondary_yield = 35` (rates rose). -/
def sampleSecondaryLossInput : SecondarySaleInput :=
  { face_value := 100000, original_yield := 25, original_tenor := 364,
    holding_days := 90, secondary_yield := 35, tax_rate := 20 }

/-- What the code computes at `sampleSecondaryLossInput`. -/
def sampleSecondaryLossResult : SecondarySaleResult :=
  { original_purchase_price := 4562500 / 57
    sale_price := 365000000 / 4609
    gross_profit := -223562500 / 262713
    tax_amount := 0
    net_profit := -223562500 / 262713
    period_yield := -4900 / 4609 }

lemma sampleSecondaryProfit_eval :
    analyzeSecondarySale sampleSecondaryProfitInput =
      .ok sampleSecondaryProfitResult := by
  norm_num [analyzeSecondarySale, validateSecondaryInputs, calculatePurchasePrice,
    calculateSecondarySalePrice, calculatePeriodYield, periodYieldWith, checkedDiv,
    sampleSecondaryProfitInput, sampleSecondaryProfitResult, DAYS_IN_YEAR,
    MIN_T_BILL_AMOUNT, MAX_T_BILL_AMOUNT, MAX_YIELD_RATE, MAX_TENOR_DAYS, max_def]

lemma sampleSecondaryLoss_eval :
    analyzeSecondarySale sampleSecondaryLossInput =
      .ok sampleSecondaryLossResult := by
  norm_num [analyzeSecondarySale, validateSecondaryInputs, calculatePurchasePrice,
    calculateSecondarySalePrice, calculatePeriodYield, periodYieldWith, checkedDiv,
    sampleSecondaryLossInput, sampleSecondaryLossResult, DAYS_IN_YEAR,
    MIN_T_BILL_AMOUNT, MAX_T_BILL_AMOUNT, MAX_YIELD_RATE, MAX_TENOR_DAYS, max_def]

theorem secondary_tax_rule_witness :
    analyzeSecondarySale sampleSecondaryLossInput = .ok sampleSecondaryLossResult ∧
    sampleSecondaryLossResult.gross_profit < 0 ∧
    (sampleSecondaryLossResult.gross_profit =
        sampleSecondaryLossResult.sale_price -
          sampleSecondaryLossResult.original_purchase_price ∧
      sampleSecondaryLossResult.tax_amount =
        max 0 (sampleSecondaryLossResult.gross_profit *
          (sampleSecondaryLossInput.tax_rate / 100)) ∧
      (sampleSecondaryLossResult.gross_profit ≤ 0 →
        sampleSecondaryLossResult.tax_amount = 0) ∧
      (0 < sampleSecondaryLossResult.gross_profit →
        sampleSecondaryLossResult.tax_amount =
          sampleSecondaryLossResult.gross_profit *
            (sampleSecondaryLossInput.tax_rate / 100)) ∧
      sampleSecondaryLossResult.net_profit =
        sampleSecondaryLossResult.gross_profit -
          sampleSecondaryLossResult.tax_amount) :=
  ⟨sampleSecondaryLoss_eval,
    by norm_num [sampleSecondaryLossResult],
    secondary_tax_rule sampleSecondaryLossInput sampleSecondaryLossResult
      sampleSecondaryLoss_eval⟩

/-- C8: holding `face_value`, `original_yield`, `original_tenor`,
`holding_days` and `tax_rate` fixed, for two accepted inputs whose secondary
yields satisfy `y1 < y2`, the `y2` result has strictly smaller `sale_price`
and strictly smaller `gross_profit`. -/
theorem secondary_yield_monotone (i j : SecondarySaleInput)
    (r s : SecondarySaleResult)
    (hfv : j.face_value = i.face_value)
    (hoy : j.original_yield = i.original_yield)
    (hot : j.original_tenor = i.original_tenor)
    (hhd : j.holding_days = i.holding_days)
    (_htx : j.tax_rate = i.tax_rate)
    (hi : analyzeSecondarySale i = .ok r)
    (hj : analyzeSecondarySale j = .ok s)
    (hy : i.secondary_yield < j.secondary_yield) :
    s.sale_price < r.sale_price ∧ s.gross_profit < r.gross_profit := by
  obtain ⟨hvi, oppi, spi, hoppi, hspi, hri1, hri2, hri3, -, -⟩ :=
    analyzeSecondarySale_ok hi
  obtain ⟨hvj, oppj, spj, hoppj, hspj, hsj1, hsj2, hsj3, -, -⟩ :=
    analyzeSecondarySale_ok hj
  obtain ⟨-, -, -, -, hltd, hfv0, -, -⟩ := validateSecondaryInputs_ok hvi
  rw [secondary_price_eq_purchase_price] at hspi hspj
  obtain ⟨hei, hdi, -, -⟩ := calculatePurchasePrice_ok hspi
  obtain ⟨hej, -, -, -⟩ := calculatePurchasePrice_ok hspj
  obtain ⟨heoi, -, -, -⟩ := calculatePurchasePrice_ok hoppi
  obtain ⟨heoj, -, -, -⟩ := calculatePurchasePrice_ok hoppj
  rw [hfv, hot, hhd] at hej
  rw [hfv, hoy, hot] at heoj
  have hopp_eq : oppj = oppi := by rw [heoj, heoi]
  have hcast : (i.holding_days : ℚ) < (i.original_tenor : ℚ) := by
    exact_mod_cast hltd
  have hrem0 : (0 : ℚ) < (i.original_tenor : ℚ) - (i.holding_days : ℚ) := by
    linarith
  have hkey :
      i.secondary_yield / 100 * ((i.original_tenor : ℚ) - (i.holding_days : ℚ)) /
          DAYS_IN_YEAR <
        j.secondary_yield / 100 * ((i.original_tenor : ℚ) - (i.holding_days : ℚ)) /
          DAYS_IN_YEAR := by
    have h365 := days_in_year_pos
    have hk : (0 : ℚ) <
        ((i.original_tenor : ℚ) - (i.holding_days : ℚ)) / DAYS_IN_YEAR / 100 := by
      positivity
    calc i.secondary_yield / 100 *
          ((i.original_tenor : ℚ) - (i.holding_days : ℚ)) / DAYS_IN_YEAR
        = i.secondary_yield *
            (((i.original_tenor : ℚ) - (i.holding_days : ℚ)) / DAYS_IN_YEAR / 100) := by
          ring
      _ < j.secondary_yield *
            (((i.original_tenor : ℚ) - (i.holding_days : ℚ)) / DAYS_IN_YEAR / 100) :=
          mul_lt_mul_of_pos_right hy hk
      _ = j.secondary_yield / 100 *
            ((i.original_tenor : ℚ) - (i.holding_days : ℚ)) / DAYS_IN_YEAR := by
          ring
  have hsale : spj < spi := by
    rw [hei, hej]
    exact div_lt_div_of_pos_left hfv0 hdi (by linarith)
  refine ⟨?_, ?_⟩
  · rw [hsj2, hri2]
    exact hsale
  · rw [hsj3, hri3, hopp_eq]
    exact sub_lt_sub_right hsale oppi

theorem secondary_yield_monotone_witness :
    analyzeSecondarySale sampleSecondaryProfitInput =
      .ok sampleSecondaryProfitResult ∧
    analyzeSecondarySale sampleSecondaryLossInput =
      .ok sampleSecondaryLossResult ∧
    sampleSecondaryProfitInput.secondary_yield <
      sampleSecondaryLossInput.secondary_yield ∧
    sampleSecondaryLossResult.sale_price < sampleSecondaryProfitResult.sale_price ∧
    sampleSecondaryLossResult.gross_profit <
      sampleSecondaryProfitResult.gross_profit := by
  have h := secondary_yield_monotone sampleSecondaryProfitInput
    sampleSecondaryLossInput sampleSecondaryProfitResult sampleSecondaryLossResult
    rfl rfl rfl rfl rfl sampleSecondaryProfit_eval sampleSecondaryLoss_eval
    (by norm_num [sampleSecondaryProfitInput, sampleSecondaryLossInput])
  exact ⟨sampleSecondaryProfit_eval, sampleSecondaryLoss_eval,
    by norm_num [sampleSecondaryProfitInput, sampleSecondaryLossInput], h.1, h.2⟩

/-! ### Validation characterization (primary) -/

/-- Primary validation rejects exactly the inputs outside the enforced
domains (which include the configured amount/yield/tenor bounds). -/
lemma validatePrimaryInputs_error_iff (i : PrimaryYieldInput) :
    (∃ f, validatePrimaryInputs i = .error f) ↔
      (i.face_value < MIN_T_BILL_AMOUNT ∨ MAX_T_BILL_AMOUNT < i.face_value ∨
       i.yield_rate ≤ 0 ∨ MAX_YIELD_RATE < i.yield_rate ∨
       i.tenor ≤ 0 ∨ MAX_TENOR_DAYS < i.tenor ∨
       i.tax_rate < 0 ∨ 100 < i.tax_rate) := by
  unfold validatePrimaryInputs
  split_ifs with h1 h2 h3 h4 h5 h6 h7 h8
  all_goals simp
  · exact Or.inr (Or.inr (Or.inl h1))
  · exact Or.inr (Or.inr (Or.inr (Or.inr (Or.inl h2))))
  · have hmin : (0 : ℚ) < MIN_T_BILL_AMOUNT := by norm_num [MIN_T_BILL_AMOUNT]
    exact Or.inl (by linarith)
  · rcases h4 with h4 | h4
    · exact Or.inr (Or.inr (Or.inr (Or.inr (Or.inr (Or.inr (Or.inl h4))))))
    · exact Or.inr (Or.inr (Or.inr (Or.inr (Or.inr (Or.inr (Or.inr h4))))))
  · exact Or.inl h5
  · exact Or.inr (Or.inl h6)
  · exact Or.inr (Or.inr (Or.inr (Or.inl h7)))
  · exact Or.inr (Or.inr (Or.inr (Or.inr (Or.inr (Or.inl h8)))))
  · push_neg at h1 h2 h3 h4 h5 h6 h7 h8
    exact ⟨h5, h6, h1, h7, h2, h8, h4.1, h4.2⟩

/-- A validation failure propagates unchanged through the primary
calculator. -/
lemma calculatePrimaryYield_error_of_validate {i : PrimaryYieldInput}
    {f : VField} (h : validatePrimaryInputs i = .error f) :
    calculatePrimaryYield i = .error (.validation f) := by
  simp only [calculatePrimaryYield, h]

/-- When validation passes, the primary calculator succeeds: the discounter's
error branches are unreachable for validated inputs. -/
lemma calculatePrimaryYield_ok_of_validate {i : PrimaryYieldInput}
    (h : validatePrimaryInputs i = .ok i) :
    ∃ r, calculatePrimaryYield i = .ok r := by
  obtain ⟨-, hy, ht, hfv, -⟩ := validatePrimaryInputs_ok h
  have ht2 : (0 : ℚ) < (i.tenor : ℚ) := by exact_mod_cast ht
  cases hc : calculatePrimaryYield i with
  | ok r => exact ⟨r, rfl⟩
  | error e =>
    simp only [calculatePrimaryYield, h, calculatePurchasePrice_pos hfv hy ht2]
      at hc
    exact absurd hc (by simp)

/-- C5 counterexample: the input `(face_value := 100, yield_rate := 25,
tenor := 364, tax_rate := 20)` lies inside every domain the claim names —
positive face value, yield and tenor, tax rate in `[0,100]` — yet the
calculator rejects it with a validation error naming `face_value`, because
validation also enforces the configured minimum bill amount of 25000. -/
theorem primary_validation_counterexample :
    ((0 : ℚ) < 100 ∧ (0 : ℚ) < 25 ∧ (0 : ℤ) < 364 ∧
      (0 : ℚ) ≤ 20 ∧ (20 : ℚ) ≤ 100) ∧
    calculatePrimaryYield
      { face_value := 100, yield_rate := 25, tenor := 364, tax_rate := 20 } =
      .error (.validation .faceValue) := by
  refine ⟨by norm_num, ?_⟩
  norm_num [calculatePrimaryYield, validatePrimaryInputs, MIN_T_BILL_AMOUNT]

/-- C5 amended: `calculate_primary_yield` fails with a validation error iff
some field is outside its enforced domain — `face_value` outside
`[MIN_T_BILL_AMOUNT, MAX_T_BILL_AMOUNT] = [25000, 10000000]`, `yield_rate`
outside `(0, MAX_YIELD_RATE] = (0, 100]`, `tenor` outside
`(0, MAX_TENOR_DAYS] = (0, 365]`, or `tax_rate` outside `[0, 100]` — and
every input inside all of these domains succeeds with a result. -/
theorem primary_validation_characterization (i : PrimaryYieldInput) :
    ((∃ f, calculatePrimaryYield i = .error (.validation f)) ↔
      (i.face_value < MIN_T_BILL_AMOUNT ∨ MAX_T_BILL_AMOUNT < i.face_value ∨
       i.yield_rate ≤ 0 ∨ MAX_YIELD_RATE < i.yield_rate ∨
       i.tenor ≤ 0 ∨ MAX_TENOR_DAYS < i.tenor ∨
       i.tax_rate < 0 ∨ 100 < i.tax_rate)) ∧
    (¬(i.face_value < MIN_T_BILL_AMOUNT ∨ MAX_T_BILL_AMOUNT < i.face_value ∨
       i.yield_rate ≤ 0 ∨ MAX_YIELD_RATE < i.yield_rate ∨
       i.tenor ≤ 0 ∨ MAX_TENOR_DAYS < i.tenor ∨
       i.tax_rate < 0 ∨ 100 < i.tax_rate) →
      ∃ r, calculatePrimaryYield i = .ok r) := by
  constructor
  · constructor
    · rintro ⟨f, hf⟩
      cases hv : validatePrimaryInputs i with
      | error g => exact (validatePrimaryInputs_error_iff i).mp ⟨g, hv⟩
      | ok w =>
        obtain ⟨hwi, -⟩ := validatePrimaryInputs_ok hv
        subst hwi
        obtain ⟨r, hr⟩ := calculatePrimaryYield_ok_of_validate hv
        rw [hr] at hf
        exact absurd hf (by simp)
    · intro hB
      obtain ⟨f, hf⟩ := (validatePrimaryInputs_error_iff i).mpr hB
      exact ⟨f, calculatePrimaryYield_error_of_validate hf⟩
  · intro hB
    cases hv : validatePrimaryInputs i with
    | error g =>
      exact absurd ((validatePrimaryInputs_error_iff i).mp ⟨g, hv⟩) hB
    | ok w =>
      obtain ⟨hwi, -⟩ := validatePrimaryInputs_ok hv
      subst hwi
      exact calculatePrimaryYield_ok_of_validate hv

theorem primary_validation_characterization_witness :
    ¬(samplePrimaryInput.face_value < MIN_T_BILL_AMOUNT ∨
      MAX_T_BILL_AMOUNT < samplePrimaryInput.face_value ∨
      samplePrimaryInput.yield_rate ≤ 0 ∨
      MAX_YIELD_RATE < samplePrimaryInput.yield_rate ∨
      samplePrimaryInput.tenor ≤ 0 ∨
      MAX_TENOR_DAYS < samplePrimaryInput.tenor ∨
      samplePrimaryInput.tax_rate < 0 ∨ 100 < samplePrimaryInput.tax_rate) ∧
    (∃ r, calculatePrimaryYield samplePrimaryInput = .ok r) := by
  have hB : ¬(samplePrimaryInput.face_value < MIN_T_BILL_AMOUNT ∨
      MAX_T_BILL_AMOUNT < samplePrimaryInput.face_value ∨
      samplePrimaryInput.yield_rate ≤ 0 ∨
      MAX_YIELD_RATE < samplePrimaryInput.yield_rate ∨
      samplePrimaryInput.tenor ≤ 0 ∨
      MAX_TENOR_DAYS < samplePrimaryInput.tenor ∨
      samplePrimaryInput.tax_rate < 0 ∨ 100 < samplePrimaryInput.tax_rate) := by
    norm_num [samplePrimaryInput, MIN_T_BILL_AMOUNT, MAX_T_BILL_AMOUNT,
      MAX_YIELD_RATE, MAX_TENOR_DAYS]
  exact ⟨hB, (primary_validation_characterization samplePrimaryInput).2 hB⟩

/-! ### Determinism and ratio-helper defaults -/

/-- C9: both calculators are pure functions of their declared input fields
alone: inputs with equal fields produce identical results, and in this
state-free embedding no call can affect a later one. -/
theorem calculators_deterministic (i j : PrimaryYieldInput)
    (i2 j2 : SecondarySaleInput)
    (h1 : i.face_value = j.face_value) (h2 : i.yield_rate = j.yield_rate)
    (h3 : i.tenor = j.tenor) (h4 : i.tax_rate = j.tax_rate)
    (h5 : i2.face_value = j2.face_value)
    (h6 : i2.original_yield = j2.original_yield)
    (h7 : i2.original_tenor = j2.original_tenor)
    (h8 : i2.holding_days = j2.holding_days)
    (h9 : i2.secondary_yield = j2.secondary_yield)
    (h10 : i2.tax_rate = j2.tax_rate) :
    calculatePrimaryYield i = calculatePrimaryYield j ∧
    analyzeSecondarySale i2 = analyzeSecondarySale j2 := by
  have hij : i = j := by
    cases i
    cases j
    simp_all
  have hij2 : i2 = j2 := by
    cases i2
    cases j2
    simp_all
  rw [hij, hij2]
  exact ⟨rfl, rfl⟩

theorem calculators_deterministic_witness :
    calculatePrimaryYield samplePrimaryInput =
      calculatePrimaryYield samplePrimaryInput ∧
    analyzeSecondarySale sampleSecondaryProfitInput =
      analyzeSecondarySale sampleSecondaryProfitInput :=
  calculators_deterministic samplePrimaryInput samplePrimaryInput
    sampleSecondaryProfitInput sampleSecondaryProfitInput
    rfl rfl rfl rfl rfl rfl rfl rfl rfl rfl

/-- C10: the two ratio helpers return 0 whenever their denominator is
non-positive, and also whenever the division step faults — for an arbitrary
fallible division operation, any fault is swallowed into a 0 default — and
the helpers used by the calculators are exactly these with the checked
division. -/
theorem ratio_helpers_default_zero (div : ℚ → ℚ → Except Unit ℚ)
    (num den : ℚ) :
    (den ≤ 0 → realProfitPercentageWith div num den = 0 ∧
      periodYieldWith div num den = 0) ∧
    (div num den = .error () → realProfitPercentageWith div num den = 0 ∧
      periodYieldWith div num den = 0) ∧
    calculateRealProfitPercentage num den =
      realProfitPercentageWith checkedDiv num den ∧
    calculatePeriodYield num den = periodYieldWith checkedDiv num den := by
  refine ⟨fun hle => ?_, fun herr => ?_, rfl, rfl⟩
  · constructor <;> simp [realProfitPercentageWith, periodYieldWith, if_pos hle]
  · by_cases hle : den ≤ 0
    · constructor <;> simp [realProfitPercentageWith, periodYieldWith, hle]
    · constructor <;> simp [realProfitPercentageWith, periodYieldWith, hle, herr]

theorem ratio_helpers_default_zero_witness :
    ((fun _ _ => (Except.error () : Except Unit ℚ)) (1 : ℚ) (1 : ℚ) =
      .error ()) ∧
    realProfitPercentageWith (fun _ _ => .error ()) 1 1 = 0 ∧
    periodYieldWith (fun _ _ => .error ()) 1 1 = 0 :=
  ⟨rfl, ((ratio_helpers_default_zero (fun _ _ => .error ()) 1 1).2.1 rfl).1,
    ((ratio_helpers_default_zero (fun _ _ => .error ()) 1 1).2.1 rfl).2⟩

end TreasuryCore
